import Mathlib

/-!
Shallow embedding of the `little-red-rover` ESP32 firmware core:
`components/drive_base_driver/motor_driver.c` and
`components/socket_mgr/socket_mgr.c`.

Floating-point values (`float`/`double` in the C source) are modelled as
exact rationals; the double constant `M_PI` is kept as an explicit
parameter `mpi : ℚ` standing for its (rational) machine value.  Machine
integers are modelled as `Int`/`Nat`; the C cast `(uint32_t)` of a
non-negative float is `Int.toNat ∘ Int.floor` (truncation toward zero).
The opaque PID control block (`pid_ctrl`, an external ESP component) is a
type parameter `P` together with a step function `ℚ → P → ℚ × P`
mirroring `pid_compute(handle, error, &out)`.
-/

namespace LRR

/-- `PWM_TIMER_RESOLUTION` is `LEDC_TIMER_10_BIT`; the duty computation
multiplies by `(float)(1 << PWM_TIMER_RESOLUTION) = 1024`. -/
def pwm_full_scale : ℕ := 1 <<< 10

/-- `#define PULSES_PER_ROTATION 30.0` -/
def PULSES_PER_ROTATION : ℚ := 30

/-- `#define PID_LOOP_PERIOD_MS 10.0 // 100 Hz` -/
def PID_LOOP_PERIOD_MS : ℚ := 10

/-- The edge action programmed into the pulse-counter channel
(`pcnt_channel_set_edge_action`): count up, count down, or hold. -/
inductive EdgeAction where
  | increase : EdgeAction
  | decrease : EdgeAction
  | hold : EdgeAction
deriving DecidableEq, Repr

/-- State of one motor (`motor_handle_t`) together with the hardware
state its driver mutates: the LEDC duties of its two PWM channels and the
edge action of its pulse-counter channel.  `encoder_count` is the
`motor->encoder.count` snapshot (`last_count`), `pid_controller : P` the
opaque PID block. -/
structure Motor (P : Type) where
  chan_a : ℕ
  chan_b : ℕ
  cmd_velocity : ℚ
  reported_speed : ℚ
  cmd_power : ℚ
  encoder_count : ℤ
  pid_controller : P
  chan_a_duty : ℕ
  chan_b_duty : ℕ
  edge_action : EdgeAction
deriving Repr

/-- `(uint32_t)(x * (float)(1 << PWM_TIMER_RESOLUTION))` for the
non-negative operand `x` appearing in each branch of `set_motor_power`:
truncation toward zero of `x * 1024`. -/
def duty_of (x : ℚ) : ℕ := (Int.floor (x * (pwm_full_scale : ℚ))).toNat

/-- `set_motor_velocity(motor, velocity)`: writes `motor->cmd_velocity`. -/
def set_motor_velocity {P : Type} (motor : Motor P) (velocity : ℚ) : Motor P :=
  { motor with cmd_velocity := velocity }

/-- `set_motor_power(motor, power)` from `motor_driver.c` lines 55–82:
if `power > 0`, `chan_b` gets duty `power * 1024`, `chan_a` gets 0 and the
encoder edge action is set to DECREASE; otherwise `chan_b` gets 0,
`chan_a` gets duty `-power * 1024` and the edge action is set to
INCREASE; then, if `power == 0`, the edge action is overwritten with
HOLD.  `ledc_update_duty` commits both duties. -/
def set_motor_power {P : Type} (motor : Motor P) (power : ℚ) : Motor P :=
  let motor :=
    if power > 0 then
      { motor with
        chan_b_duty := duty_of power
        chan_a_duty := 0
        edge_action := EdgeAction.decrease }
    else
      { motor with
        chan_b_duty := 0
        chan_a_duty := duty_of (-power)
        edge_action := EdgeAction.increase }
  if power = 0 then { motor with edge_action := EdgeAction.hold } else motor

/-- `PULSES_TO_RAD(pulses)`: `((float)pulses / PULSES_PER_ROTATION) * (2 * M_PI)`. -/
def PULSES_TO_RAD (mpi : ℚ) (pulses : ℤ) : ℚ :=
  ((pulses : ℚ) / PULSES_PER_ROTATION) * (2 * mpi)

/-- One invocation of `pid_callback` (lines 102–118), given the value
`current_encoder_count` read from the hardware counter and the PID step
function.  It computes `pulses_elapsed = current - motor->encoder.count`,
sets `reported_speed = PULSES_TO_RAD(pulses_elapsed) * (PID_LOOP_PERIOD_MS / 1000.0)`
(the source multiplies by the period), feeds
`error = cmd_velocity - reported_speed` to the PID, applies the resulting
power, and finally stores `motor->encoder.count = current_encoder_count`. -/
def pid_callback {P : Type} (pid_compute : ℚ → P → ℚ × P) (mpi : ℚ)
    (current_encoder_count : ℤ) (motor : Motor P) : Motor P :=
  let pulses_elapsed : ℤ := current_encoder_count - motor.encoder_count
  let reported : ℚ := PULSES_TO_RAD mpi pulses_elapsed * (PID_LOOP_PERIOD_MS / 1000)
  let error : ℚ := motor.cmd_velocity - reported
  let out := pid_compute error motor.pid_controller
  let motor := { motor with
                   reported_speed := reported
                   cmd_power := out.1
                   pid_controller := out.2 }
  let motor := set_motor_power motor out.1
  { motor with encoder_count := current_encoder_count }

/-- Modelled from the spec: the velocity the specification prescribes,
`reported_velocity = delta_to_rad(delta) / period_seconds`
(angular displacement divided by the control period in seconds). -/
def spec_reported_velocity (mpi : ℚ) (delta : ℤ) : ℚ :=
  PULSES_TO_RAD mpi delta / (PID_LOOP_PERIOD_MS / 1000)

/-- A trivial PID block used as a concrete instantiation in closed
theorems: state `Unit`, output equal to the error. -/
def trivial_pid : ℚ → Unit → ℚ × Unit := fun e s => (e, s)

/-- A concrete motor state used in closed theorems. -/
def motor0 : Motor Unit :=
  { chan_a := 0, chan_b := 1, cmd_velocity := 0, reported_speed := 0,
    cmd_power := 0, encoder_count := 0, pid_controller := (),
    chan_a_duty := 0, chan_b_duty := 0, edge_action := EdgeAction.hold }

/-- A concrete rational value standing for `M_PI` in closed theorems. -/
def mpi0 : ℚ := 314159265358979323 / 100000000000000000

/-!  `socket_mgr.c`: the receive loop (`socket_rx_task`, lines 103–137)
and the body of the send loop (`socket_tx_task`, lines 67–98).  The
nanopb decode helpers (`decode_unionmessage_type`,
`decode_unionmessage_contents`) live outside the two source files; only
their outcomes matter to the dispatch logic, so one loop iteration is
driven by the outcome of `recvfrom` and of the two decode steps. -/

/-- Outcome of one `recvfrom` call together with the decode outcomes for
the received bytes: either `recv_error` (`len < 0`), or a datagram for
which `decode_unionmessage_type` did (`type_is_twist = true`) or did not
return `TwistCmd_fields`, and for which `decode_unionmessage_contents`
would succeed (`body_ok = true`) or fail. -/
inductive RxInput where
  | recv_error : RxInput
  | datagram (type_is_twist : Bool) (body_ok : Bool) : RxInput
deriving DecidableEq, Repr

/-- Observable effect of one iteration of `socket_rx_task`'s `while (1)`
body: whether control reaches the next iteration (`continues`; the
`return` on `len < 0` does not), whether the registered callback in
`rx_callbacks` was invoked, and whether an `ESP_LOGE` error was
emitted. -/
structure RxResult where
  continues : Bool
  handler_called : Bool
  logged_error : Bool
deriving DecidableEq, Repr

/-- One iteration of `socket_rx_task` (lines 107–136).  `len < 0` logs
`recvfrom failed` and executes `return`, ending the task.  Otherwise the
union type is decoded; when it equals `TwistCmd_fields` the contents are
decoded into `msg` and `(*(rx_callbacks[eTwistCmd]))(&msg)` is invoked
unconditionally — before `status` is examined; `status` stays `false`
whenever the type is not `TwistCmd_fields` or the contents decode fails,
in which case `Decode failed` is logged. -/
def socket_rx_step : RxInput → RxResult
  | RxInput.recv_error => { continues := false, handler_called := false, logged_error := true }
  | RxInput.datagram type_is_twist body_ok =>
      if type_is_twist then
        { continues := true, handler_called := true, logged_error := !body_ok }
      else
        { continues := true, handler_called := false, logged_error := true }

/-- The receive loop run over a sequence of inputs: iterations are
performed in order until one does not continue (the `return`), which ends
the task; later inputs are never read. -/
def socket_rx_run : List RxInput → List RxResult
  | [] => []
  | i :: rest =>
      let r := socket_rx_step i
      if r.continues then r :: socket_rx_run rest else [r]

/-- A payload is malformed when its envelope is truncated or its
discriminant unknown (`decode_unionmessage_type` does not yield
`TwistCmd_fields`) or its type-specific body fails to decode. -/
def malformed : RxInput → Prop
  | RxInput.recv_error => False
  | RxInput.datagram type_is_twist body_ok => type_is_twist = false ∨ body_ok = false

instance : DecidablePred malformed := by
  intro i
  cases i with
  | recv_error => exact isFalse (fun h => h)
  | datagram t b => exact inferInstanceAs (Decidable (t = false ∨ b = false))

/-- Observable effect of one iteration of `socket_tx_task`'s body after
`xQueueReceive` yields an envelope: whether `Failed to serialize message`
was logged, whether `sendto` was called, and with how many bytes
(`stream.bytes_written`). -/
structure TxResult where
  logged_error : Bool
  sendto_called : Bool
  sent_bytes : ℕ
deriving DecidableEq, Repr

/-- One iteration of `socket_tx_task` (lines 72–96) on a dequeued
envelope, driven by the outcome of `pb_encode`: `encode_ok` its status
and `bytes_written` the bytes it wrote to `tx_buffer`.  On failure the
error is logged, and then `sendto` is still called with
`stream.bytes_written` bytes; there is no retry path — control returns
to `xQueueReceive`. -/
def socket_tx_step (encode_ok : Bool) (bytes_written : ℕ) : TxResult :=
  { logged_error := !encode_ok, sendto_called := true, sent_bytes := bytes_written }

/-- A run of the control loop: `pid_callback` fired once per element of
`counts`, the successive values read from the hardware pulse counter. -/
def run_ticks {P : Type} (pid_compute : ℚ → P → ℚ × P) (mpi : ℚ)
    (counts : List ℤ) (motor : Motor P) : Motor P :=
  counts.foldl (fun s c => pid_callback pid_compute mpi c s) motor

/-- The `pulses_elapsed` value computed by each tick of such a run:
`current_encoder_count - motor->encoder.count` at the moment of the
tick. -/
def run_deltas {P : Type} (pid_compute : ℚ → P → ℚ × P) (mpi : ℚ) :
    List ℤ → Motor P → List ℤ
  | [], _ => []
  | c :: rest, motor =>
      (c - motor.encoder_count) ::
        run_deltas pid_compute mpi rest (pid_callback pid_compute mpi c motor)

section ProjectionLemmas

variable {P : Type} (m : Motor P) (p : ℚ)

lemma set_motor_power_reported_speed :
    (set_motor_power m p).reported_speed = m.reported_speed := by
  unfold set_motor_power
  split <;> split <;> rfl

lemma set_motor_power_cmd_velocity :
    (set_motor_power m p).cmd_velocity = m.cmd_velocity := by
  unfold set_motor_power
  split <;> split <;> rfl

lemma set_motor_power_pos (hp : 0 < p) :
    set_motor_power m p =
      { m with
          chan_b_duty := duty_of p
          chan_a_duty := 0
          edge_action := EdgeAction.decrease } := by
  unfold set_motor_power
  rw [if_neg (by exact ne_of_gt hp), if_pos hp]

lemma set_motor_power_neg (hp : p < 0) :
    set_motor_power m p =
      { m with
          chan_b_duty := 0
          chan_a_duty := duty_of (-p)
          edge_action := EdgeAction.increase } := by
  unfold set_motor_power
  rw [if_neg (by exact ne_of_lt hp), if_neg (by exact lt_asymm hp)]

lemma set_motor_power_zero :
    set_motor_power m 0 =
      { m with
          chan_b_duty := 0
          chan_a_duty := duty_of 0
          edge_action := EdgeAction.hold } := by
  unfold set_motor_power
  rw [if_pos rfl, if_neg (by exact lt_irrefl 0)]
  simp

lemma duty_of_zero : duty_of 0 = 0 := by
  unfold duty_of
  norm_num

lemma pid_callback_encoder_count (pid_compute : ℚ → P → ℚ × P) (mpi : ℚ) (c : ℤ) :
    (pid_callback pid_compute mpi c m).encoder_count = c := rfl

lemma pid_callback_reported_speed (pid_compute : ℚ → P → ℚ × P) (mpi : ℚ) (c : ℤ) :
    (pid_callback pid_compute mpi c m).reported_speed =
      PULSES_TO_RAD mpi (c - m.encoder_count) * (PID_LOOP_PERIOD_MS / 1000) := by
  unfold pid_callback
  exact set_motor_power_reported_speed _ _

end ProjectionLemmas

lemma pwm_full_scale_eq : pwm_full_scale = 1024 := rfl

/-- C1: the source multiplies the angular displacement by the control
period in seconds instead of dividing by it.  At an encoder delta of 30
pulses in one tick, `pid_callback` stores
`PULSES_TO_RAD(30) * 0.01`, whereas the specified velocity is
`PULSES_TO_RAD(30) / 0.01`; the two differ. -/
theorem C1_code_multiplies_by_period :
    (pid_callback trivial_pid mpi0 30 motor0).reported_speed
        = PULSES_TO_RAD mpi0 30 * (1 / 100)
    ∧ spec_reported_velocity mpi0 30 = PULSES_TO_RAD mpi0 30 * 100
    ∧ (pid_callback trivial_pid mpi0 30 motor0).reported_speed
        ≠ spec_reported_velocity mpi0 30 := by
  have hrep : (pid_callback trivial_pid mpi0 30 motor0).reported_speed
      = PULSES_TO_RAD mpi0 30 * (1 / 100) := by
    rw [pid_callback_reported_speed]
    norm_num [motor0, PID_LOOP_PERIOD_MS]
  have hspec : spec_reported_velocity mpi0 30 = PULSES_TO_RAD mpi0 30 * 100 := by
    unfold spec_reported_velocity PID_LOOP_PERIOD_MS
    ring
  refine ⟨hrep, hspec, ?_⟩
  rw [hrep, hspec]
  norm_num [PULSES_TO_RAD, PULSES_PER_ROTATION, mpi0]

/-- C2 counterexample: a datagram whose discriminant decodes to
`TwistCmd_fields` but whose type-specific body is truncated is malformed,
yet `socket_rx_task` still invokes the registered handler. -/
theorem C2_counterexample_truncated_body_invokes_handler :
    malformed (RxInput.datagram true false)
    ∧ (socket_rx_step (RxInput.datagram true false)).handler_called = true :=
  ⟨Or.inr rfl, rfl⟩

/-- C2 (amended): a malformed datagram never crashes the receive loop and
is always logged, but the registered handler is skipped only when the
envelope is truncated or the discriminant unknown; when the discriminant
resolves to `TwistCmd_fields`, the handler is invoked even though the
body failed to decode. -/
theorem C2_amended_malformed_dispatch (i : RxInput) (h : malformed i) :
    (socket_rx_step i).continues = true
    ∧ (socket_rx_step i).logged_error = true
    ∧ ((socket_rx_step i).handler_called = true ↔ ∃ b, i = RxInput.datagram true b) := by
  cases i with
  | recv_error => exact absurd h (fun hf => hf)
  | datagram t b =>
    cases t with
    | false =>
      refine ⟨rfl, rfl, ?_⟩
      simp [socket_rx_step]
    | true =>
      have hb : b = false := h.resolve_left (by simp)
      subst hb
      refine ⟨rfl, rfl, ?_⟩
      simp [socket_rx_step]

/-- C2 witness: the amended statement evaluated on a datagram with an
unknown discriminant. -/
theorem C2_amended_witness :
    malformed (RxInput.datagram false true)
    ∧ ((socket_rx_step (RxInput.datagram false true)).continues = true
       ∧ (socket_rx_step (RxInput.datagram false true)).logged_error = true
       ∧ ((socket_rx_step (RxInput.datagram false true)).handler_called = true
            ↔ ∃ b, RxInput.datagram false true = RxInput.datagram true b)) :=
  ⟨Or.inl rfl, C2_amended_malformed_dispatch (RxInput.datagram false true) (Or.inl rfl)⟩

/-- C3 counterexample: a failed `recvfrom` does terminate the receive
loop — the iteration does not continue, and a datagram arriving
afterwards is never processed. -/
theorem C3_counterexample_recv_error_ends_loop :
    (socket_rx_step RxInput.recv_error).continues = false
    ∧ socket_rx_run [RxInput.recv_error, RxInput.datagram true true]
        = [{ continues := false, handler_called := false, logged_error := true }] :=
  ⟨rfl, rfl⟩

/-- C3 (amended): a socket receive failure is logged and then
`socket_rx_task` returns: the loop terminates without invoking any
handler, and no subsequent datagram is ever read. -/
theorem C3_amended_recv_error_terminates (rest : List RxInput) :
    socket_rx_run (RxInput.recv_error :: rest)
      = [{ continues := false, handler_called := false, logged_error := true }] := rfl

/-- C4 counterexample: for the positive power 1/2, `set_motor_power`
programs the encoder edge action to DECREASE, not to increase. -/
theorem C4_counterexample_positive_power_decrease :
    (0:ℚ) < 1/2
    ∧ (set_motor_power motor0 (1/2)).edge_action = EdgeAction.decrease
    ∧ EdgeAction.decrease ≠ EdgeAction.increase := by
  refine ⟨by norm_num, ?_, by decide⟩
  rw [set_motor_power_pos motor0 (1/2) (by norm_num)]

/-- C4 (amended): for nonzero power, positive power drives channel B with
duty `⌊power * 2^10⌋` and zero on channel A while setting the encoder
edge action to DECREASE; negative power drives channel A with duty
`⌊-power * 2^10⌋` and zero on channel B while setting the edge action to
INCREASE. -/
theorem C4_amended_direction_mapping {P : Type} (m : Motor P) (p : ℚ) (hp : p ≠ 0) :
    (set_motor_power m p).edge_action
        = (if 0 < p then EdgeAction.decrease else EdgeAction.increase)
    ∧ (set_motor_power m p).chan_b_duty = (if 0 < p then duty_of p else 0)
    ∧ (set_motor_power m p).chan_a_duty = (if 0 < p then 0 else duty_of (-p)) := by
  rcases lt_trichotomy p 0 with h | h | h
  · rw [set_motor_power_neg m p h, if_neg (lt_asymm h), if_neg (lt_asymm h),
      if_neg (lt_asymm h)]
    exact ⟨rfl, rfl, rfl⟩
  · exact absurd h hp
  · rw [set_motor_power_pos m p h, if_pos h, if_pos h, if_pos h]
    exact ⟨rfl, rfl, rfl⟩

/-- C4 witness: the amended statement evaluated at power 1/2. -/
theorem C4_amended_witness :
    ((1:ℚ)/2 ≠ 0)
    ∧ ((set_motor_power motor0 (1/2)).edge_action
          = (if (0:ℚ) < 1/2 then EdgeAction.decrease else EdgeAction.increase)
       ∧ (set_motor_power motor0 (1/2)).chan_b_duty
          = (if (0:ℚ) < 1/2 then duty_of (1/2) else 0)
       ∧ (set_motor_power motor0 (1/2)).chan_a_duty
          = (if (0:ℚ) < 1/2 then 0 else duty_of (-(1/2)))) :=
  ⟨by norm_num, C4_amended_direction_mapping motor0 (1/2) (by norm_num)⟩

/-- C5 counterexample: power 2 lies outside [-1, 1], and the duty written
to channel B is the unclamped 2048, which exceeds the full-scale count
1024. -/
theorem C5_counterexample_no_clamp :
    ¬ ((-1:ℚ) ≤ 2 ∧ (2:ℚ) ≤ 1)
    ∧ (set_motor_power motor0 2).chan_b_duty = 2048
    ∧ pwm_full_scale < 2048 := by
  refine ⟨by norm_num, ?_, by rw [pwm_full_scale_eq]; norm_num⟩
  rw [set_motor_power_pos motor0 2 (by norm_num)]
  show duty_of 2 = 2048
  unfold duty_of
  rw [pwm_full_scale_eq]
  norm_num
  rfl

lemma pwm_full_scale_le_duty_of (q : ℚ) (hq : 1 ≤ q) : pwm_full_scale ≤ duty_of q := by
  unfold duty_of
  have h1 : ((pwm_full_scale : ℚ)) ≤ q * (pwm_full_scale : ℚ) := by
    calc ((pwm_full_scale : ℚ)) = 1 * (pwm_full_scale : ℚ) := by ring
      _ ≤ q * (pwm_full_scale : ℚ) := by
          apply mul_le_mul_of_nonneg_right hq
          positivity
  have h2 : (pwm_full_scale : ℤ) ≤ Int.floor (q * (pwm_full_scale : ℚ)) := by
    rw [Int.le_floor]
    exact_mod_cast h1
  calc pwm_full_scale = ((pwm_full_scale : ℤ)).toNat := rfl
    _ ≤ (Int.floor (q * (pwm_full_scale : ℚ))).toNat := Int.toNat_le_toNat h2

/-- C5 (amended): `set_motor_power` applies no clamping: for any power
outside [-1, 1] the duty written to the driven channel (B for positive
power, A for negative) is the raw `⌊|power| * 2^10⌋`, which is at least
the full-scale count 1024, while the other channel's duty is 0. -/
theorem C5_amended_no_clamp {P : Type} (m : Motor P) (p : ℚ) (hp : 1 < |p|) :
    (if 0 < p then (set_motor_power m p).chan_b_duty
     else (set_motor_power m p).chan_a_duty) = duty_of |p|
    ∧ (if 0 < p then (set_motor_power m p).chan_a_duty
       else (set_motor_power m p).chan_b_duty) = 0
    ∧ pwm_full_scale ≤ duty_of |p| := by
  have hne : p ≠ 0 := by
    intro h
    rw [h] at hp
    norm_num at hp
  rcases hne.lt_or_lt with h | h
  · rw [if_neg (lt_asymm h), if_neg (lt_asymm h), set_motor_power_neg m p h,
      abs_of_neg h]
    exact ⟨rfl, rfl, pwm_full_scale_le_duty_of (-p) (le_of_lt (by rwa [abs_of_neg h] at hp))⟩
  · rw [if_pos h, if_pos h, set_motor_power_pos m p h, abs_of_pos h]
    exact ⟨rfl, rfl, pwm_full_scale_le_duty_of p (le_of_lt (by rwa [abs_of_pos h] at hp))⟩

/-- C5 witness: the amended statement evaluated at power -2, exercising
the negative / channel-A case. -/
theorem C5_amended_witness :
    (1 < |(-2 : ℚ)|)
    ∧ ((if (0:ℚ) < -2 then (set_motor_power motor0 (-2)).chan_b_duty
        else (set_motor_power motor0 (-2)).chan_a_duty) = duty_of |(-2 : ℚ)|
       ∧ (if (0:ℚ) < -2 then (set_motor_power motor0 (-2)).chan_a_duty
          else (set_motor_power motor0 (-2)).chan_b_duty) = 0
       ∧ pwm_full_scale ≤ duty_of |(-2 : ℚ)|) :=
  ⟨by norm_num, C5_amended_no_clamp motor0 (-2) (by norm_num)⟩

/-- C6 counterexample: when `pb_encode` fails, `socket_tx_task` logs the
failure and nevertheless calls `sendto` — the envelope is not dropped
without being transmitted. -/
theorem C6_counterexample_encode_failure_still_sent :
    (socket_tx_step false 7).logged_error = true
    ∧ (socket_tx_step false 7).sendto_called = true :=
  ⟨rfl, rfl⟩

/-- C6 (amended): a serialization failure is logged, and `sendto` is
still invoked with the `bytes_written` bytes written before the failure;
the envelope is processed once and never retried. -/
theorem C6_amended_encode_failure_logged_sent (bytes_written : ℕ) :
    socket_tx_step false bytes_written
      = { logged_error := true, sendto_called := true, sent_bytes := bytes_written } := rfl

/-- C7: applying a power command of exactly 0 sets both PWM channel
duties to 0 and programs the encoder edge action to HOLD. -/
theorem C7_zero_power_holds {P : Type} (m : Motor P) :
    (set_motor_power m 0).chan_a_duty = 0
    ∧ (set_motor_power m 0).chan_b_duty = 0
    ∧ (set_motor_power m 0).edge_action = EdgeAction.hold := by
  rw [set_motor_power_zero]
  exact ⟨duty_of_zero, rfl, rfl⟩

/-- C8: `pid_callback` stores `last_count := current` exactly once per
tick, and over any run the per-tick deltas
`current - last_count` sum to the net change of the counter between the
first and the last read. -/
theorem C8_deltas_telescope {P : Type} (pid_compute : ℚ → P → ℚ × P) (mpi : ℚ) :
    (∀ (c : ℤ) (m : Motor P), (pid_callback pid_compute mpi c m).encoder_count = c)
    ∧ ∀ (counts : List ℤ) (m : Motor P),
        (run_deltas pid_compute mpi counts m).sum
          = (run_ticks pid_compute mpi counts m).encoder_count - m.encoder_count := by
  refine ⟨fun c m => rfl, ?_⟩
  intro counts
  induction counts with
  | nil =>
    intro m
    simp [run_deltas, run_ticks]
  | cons c rest ih =>
    intro m
    have hrun : run_ticks pid_compute mpi (c :: rest) m
        = run_ticks pid_compute mpi rest (pid_callback pid_compute mpi c m) := rfl
    simp only [run_deltas, List.sum_cons, hrun, ih, pid_callback_encoder_count]
    ring

/-- C9: after any `set_motor_power`, at most one of the two PWM channels
has a nonzero duty — in every branch one of the pair is written 0. -/
theorem C9_at_most_one_channel_driven {P : Type} (m : Motor P) (p : ℚ) :
    (set_motor_power m p).chan_a_duty = 0 ∨ (set_motor_power m p).chan_b_duty = 0 := by
  rcases lt_trichotomy p 0 with h | h | h
  · right
    rw [set_motor_power_neg m p h]
  · subst h
    right
    rw [set_motor_power_zero]
  · left
    rw [set_motor_power_pos m p h]

/-- C10: `set_motor_velocity` writes only `cmd_velocity`; every other
field of the motor state is left unchanged. -/
theorem C10_set_velocity_frame {P : Type} (m : Motor P) (v : ℚ) :
    (set_motor_velocity m v).cmd_velocity = v
    ∧ (set_motor_velocity m v).reported_speed = m.reported_speed
    ∧ (set_motor_velocity m v).cmd_power = m.cmd_power
    ∧ (set_motor_velocity m v).encoder_count = m.encoder_count
    ∧ (set_motor_velocity m v).pid_controller = m.pid_controller
    ∧ (set_motor_velocity m v).chan_a = m.chan_a
    ∧ (set_motor_velocity m v).chan_b = m.chan_b
    ∧ (set_motor_velocity m v).chan_a_duty = m.chan_a_duty
    ∧ (set_motor_velocity m v).chan_b_duty = m.chan_b_duty
    ∧ (set_motor_velocity m v).edge_action = m.edge_action :=
  ⟨rfl, rfl, rfl, rfl, rfl, rfl, rfl, rfl, rfl, rfl⟩

end LRR
